import Mathlib

/-!
Verification of the Astronode micropython modem driver
(`modem_astronode.py`).

The driver is shallowly embedded: Python byte strings (`bytes`) and ASCII
strings (`str`) are both represented as `List Nat` of byte / character
codes (every string handled by the driver is ASCII, so `str.encode` /
`bytes.decode` are identities on this representation), machine integers are
`Nat` with explicit masking where the source masks, and code that can raise
an exception (`ubinascii.unhexlify` on invalid hex, indexing a short
buffer, calling a method on `None`) returns `Option`, with `none` marking
the raised exception.  The serial port is abstracted by the value returned
by `UART.write` (`Option Nat`: `none` models a failed write returning
`None`) and by the list of bytes the port delivers before the receive
deadline expires (exhausting the list models the timeout).
-/

namespace Astronode

/-! ## Constants from the source -/

def STXb : Nat := 0x02
def ETXb : Nat := 0x03

def CFG_SR : Nat := 0x10
def CFG_FR : Nat := 0x11
def CFG_RR : Nat := 0x15
def RTC_RR : Nat := 0x17
def MGI_RR : Nat := 0x19
def MSN_RR : Nat := 0x1A
def MPN_RR : Nat := 0x1B
def PLD_ER : Nat := 0x25
def PLD_DR : Nat := 0x26
def PLD_FR : Nat := 0x27

def CFG_SA : Nat := 0x90
def CFG_FA : Nat := 0x91
def CFG_RA : Nat := 0x95
def RTC_RA : Nat := 0x97
def MGI_RA : Nat := 0x99
def MSN_RA : Nat := 0x9A
def MPN_RA : Nat := 0x9B
def PLD_EA : Nat := 0xA5
def PLD_DA : Nat := 0xA6
def PLD_FA : Nat := 0xA7
def ERR_RA : Nat := 0xFF

def ASN_MAX_MSG_SIZE : Nat := 160

def ANS_STATUS_NONE : Nat := 0x0
def ANS_STATUS_CRC_NOT_VALID : Nat := 0x0001
def ANS_STATUS_OPCODE_NOT_VALID : Nat := 0x0121
def ANS_STATUS_SUCCESS : Nat := 0x7000
def ANS_STATUS_TIMEOUT : Nat := 0x7001
def ANS_STATUS_HW_ERR : Nat := 0x7002
def ANS_STATUS_DATA_SENT : Nat := 0x7003
def ANS_STATUS_DATA_RECEIVED : Nat := 0x7004
def ANS_STATUS_PAYLOAD_TOO_LONG : Nat := 0x7005
def ANS_STATUS_PAYLOAD_ID_CHECK_FAILED : Nat := 0x7006

def ASTROCAST_REF_UNIX_TIME : Nat := 1514764800

/-! ## Checksum engine (`_crc16`) -/

/-- The precomputed 256-entry CCITT lookup table from `_crc16`. -/
def crcTable : List Nat := [
  0x0000, 0x1021, 0x2042, 0x3063, 0x4084, 0x50A5, 0x60C6, 0x70E7, 0x8108, 0x9129, 0xA14A, 0xB16B, 0xC18C, 0xD1AD, 0xE1CE, 0xF1EF,
  0x1231, 0x0210, 0x3273, 0x2252, 0x52B5, 0x4294, 0x72F7, 0x62D6, 0x9339, 0x8318, 0xB37B, 0xA35A, 0xD3BD, 0xC39C, 0xF3FF, 0xE3DE,
  0x2462, 0x3443, 0x0420, 0x1401, 0x64E6, 0x74C7, 0x44A4, 0x5485, 0xA56A, 0xB54B, 0x8528, 0x9509, 0xE5EE, 0xF5CF, 0xC5AC, 0xD58D,
  0x3653, 0x2672, 0x1611, 0x0630, 0x76D7, 0x66F6, 0x5695, 0x46B4, 0xB75B, 0xA77A, 0x9719, 0x8738, 0xF7DF, 0xE7FE, 0xD79D, 0xC7BC,
  0x48C4, 0x58E5, 0x6886, 0x78A7, 0x0840, 0x1861, 0x2802, 0x3823, 0xC9CC, 0xD9ED, 0xE98E, 0xF9AF, 0x8948, 0x9969, 0xA90A, 0xB92B,
  0x5AF5, 0x4AD4, 0x7AB7, 0x6A96, 0x1A71, 0x0A50, 0x3A33, 0x2A12, 0xDBFD, 0xCBDC, 0xFBBF, 0xEB9E, 0x9B79, 0x8B58, 0xBB3B, 0xAB1A,
  0x6CA6, 0x7C87, 0x4CE4, 0x5CC5, 0x2C22, 0x3C03, 0x0C60, 0x1C41, 0xEDAE, 0xFD8F, 0xCDEC, 0xDDCD, 0xAD2A, 0xBD0B, 0x8D68, 0x9D49,
  0x7E97, 0x6EB6, 0x5ED5, 0x4EF4, 0x3E13, 0x2E32, 0x1E51, 0x0E70, 0xFF9F, 0xEFBE, 0xDFDD, 0xCFFC, 0xBF1B, 0xAF3A, 0x9F59, 0x8F78,
  0x9188, 0x81A9, 0xB1CA, 0xA1EB, 0xD10C, 0xC12D, 0xF14E, 0xE16F, 0x1080, 0x00A1, 0x30C2, 0x20E3, 0x5004, 0x4025, 0x7046, 0x6067,
  0x83B9, 0x9398, 0xA3FB, 0xB3DA, 0xC33D, 0xD31C, 0xE37F, 0xF35E, 0x02B1, 0x1290, 0x22F3, 0x32D2, 0x4235, 0x5214, 0x6277, 0x7256,
  0xB5EA, 0xA5CB, 0x95A8, 0x8589, 0xF56E, 0xE54F, 0xD52C, 0xC50D, 0x34E2, 0x24C3, 0x14A0, 0x0481, 0x7466, 0x6447, 0x5424, 0x4405,
  0xA7DB, 0xB7FA, 0x8799, 0x97B8, 0xE75F, 0xF77E, 0xC71D, 0xD73C, 0x26D3, 0x36F2, 0x0691, 0x16B0, 0x6657, 0x7676, 0x4615, 0x5634,
  0xD94C, 0xC96D, 0xF90E, 0xE92F, 0x99C8, 0x89E9, 0xB98A, 0xA9AB, 0x5844, 0x4865, 0x7806, 0x6827, 0x18C0, 0x08E1, 0x3882, 0x28A3,
  0xCB7D, 0xDB5C, 0xEB3F, 0xFB1E, 0x8BF9, 0x9BD8, 0xABBB, 0xBB9A, 0x4A75, 0x5A54, 0x6A37, 0x7A16, 0x0AF1, 0x1AD0, 0x2AB3, 0x3A92,
  0xFD2E, 0xED0F, 0xDD6C, 0xCD4D, 0xBDAA, 0xAD8B, 0x9DE8, 0x8DC9, 0x7C26, 0x6C07, 0x5C64, 0x4C45, 0x3CA2, 0x2C83, 0x1CE0, 0x0CC1,
  0xEF1F, 0xFF3E, 0xCF5D, 0xDF7C, 0xAF9B, 0xBFBA, 0x8FD9, 0x9FF8, 0x6E17, 0x7E36, 0x4E55, 0x5E74, 0x2E93, 0x3EB2, 0x0ED1, 0x1EF0
  ]

/-- One iteration of the `for byte in data` loop of `_crc16`:
`crc = (crc << 8) ^ table[(crc >> 8) ^ byte]; crc &= 0xFFFF`. -/
def crc16_update (crc byte : Nat) : Nat :=
  ((crc <<< 8) ^^^ crcTable.getD ((crc >>> 8) ^^^ byte) 0) % 65536

/-- `_crc16(data)`: CRC-16 (CCITT), accumulator initialised to `0xFFFF`,
one table-lookup update per input byte, masked to 16 bits after every
step. -/
def crc16 (data : List Nat) : Nat :=
  data.foldl crc16_update 0xFFFF


/-! ## ASCII-hex domain (`ubinascii`, string formatting)

Character codes: 48-57 are the digits, 65-70 are A-F, 97-102 are a-f,
32 is the space. -/

/-- `bytes.upper()` applied to one byte: ASCII lowercase letters are
mapped to uppercase, every other byte is unchanged. -/
def byteUpper (b : Nat) : Nat :=
  if 97 <= b ∧ b <= 122 then b - 32 else b

/-- Value of one ASCII hex-digit character code, `none` when the
character is not a hex digit (`ubinascii.unhexlify` raises on it). -/
def hexDigitVal (c : Nat) : Option Nat :=
  if 48 <= c ∧ c <= 57 then some (c - 48)
  else if 97 <= c ∧ c <= 102 then some (c - 87)
  else if 65 <= c ∧ c <= 70 then some (c - 55)
  else none

/-- `ubinascii.unhexlify`: two hex characters per output byte; `none`
models the `ValueError` raised on odd length or a non-hex character. -/
def unhexlify : List Nat → Option (List Nat)
  | [] => some []
  | [_] => none
  | c1 :: c2 :: rest =>
    match hexDigitVal c1 with
    | none => none
    | some hi =>
      match hexDigitVal c2 with
      | none => none
      | some lo =>
        match unhexlify rest with
        | none => none
        | some bs => some ((hi * 16 + lo) :: bs)

/-- Lowercase hex-digit character code for a nibble. -/
def hexCharLower (n : Nat) : Nat :=
  if n < 10 then 48 + n else 87 + n

/-- Uppercase hex-digit character code for a nibble (`{:04X}`, `%X`). -/
def hexCharUpper (n : Nat) : Nat :=
  if n < 10 then 48 + n else 55 + n

/-- `ubinascii.hexlify`: each input byte (always `< 256` in the source)
becomes two lowercase hex characters. -/
def hexlify (bs : List Nat) : List Nat :=
  bs.flatMap fun b => [hexCharLower (b % 256 / 16), hexCharLower (b % 16)]

/-- `text_to_hex(text)`: `ubinascii.hexlify(text).decode('ascii')`. -/
def text_to_hex (text : List Nat) : List Nat :=
  hexlify text

/-- `'{:04X}'.format(n)` for a 16-bit value (`crc16` output is always
masked below `0x10000`, so the width is exactly 4). -/
def format04X (n : Nat) : List Nat :=
  [hexCharUpper (n / 4096 % 16), hexCharUpper (n / 256 % 16),
   hexCharUpper (n / 16 % 16), hexCharUpper (n % 16)]

/-- Uppercase hex digits of `n` without padding (`'%X'`), computed with
structural recursion fuel so that the kernel can evaluate it; any fuel
above `n` computes the digits (see `hexDigitsUpper_unfold`). -/
def hexDigitsUpperGo : Nat → Nat → List Nat
  | 0, n => [hexCharUpper (n % 16)]
  | fuel + 1, n =>
    if n < 16 then [hexCharUpper n]
    else hexDigitsUpperGo fuel (n / 16) ++ [hexCharUpper (n % 16)]

/-- Uppercase hex digits of `n` without padding (`'%X'`). -/
def hexDigitsUpper (n : Nat) : List Nat :=
  hexDigitsUpperGo (n + 1) n

/-- `"%0.2X" % n`: uppercase hex, zero-padded on the left to width 2. -/
def format02X (n : Nat) : List Nat :=
  let d := hexDigitsUpper n
  if d.length < 2 then List.replicate (2 - d.length) 48 ++ d else d

/-- Lowercase hex digits with structural recursion fuel, as for
`hexDigitsUpperGo`. -/
def hexDigitsLowerGo : Nat → Nat → List Nat
  | 0, n => [hexCharLower (n % 16)]
  | fuel + 1, n =>
    if n < 16 then [hexCharLower n]
    else hexDigitsLowerGo fuel (n / 16) ++ [hexCharLower (n % 16)]

/-- Lowercase hex digits of `n` without padding (the `hex()` builtin
without its `0x` prefix). -/
def hexDigitsLower (n : Nat) : List Nat :=
  hexDigitsLowerGo (n + 1) n

/-- `'{:04s}'.format(hex(rnd)[2:6])`: the first four lowercase hex digits
of the random draw, left-justified and padded on the right with spaces to
width 4. -/
def randIdStr (rnd : Nat) : List Nat :=
  let d := (hexDigitsLower rnd).take 4
  d ++ List.replicate (4 - d.length) 32

/-- `_generate_crc(data)`: CRC-16 of the bytes denoted by the hex string
`data`, rendered as 4 uppercase hex characters and reordered as
positions `[2,3,0,1]`.  `none` models the exception `unhexlify` raises
on a malformed hex string. -/
def generate_crc (data : List Nat) : Option (List Nat) :=
  (unhexlify data).map fun bs =>
    let crc_tmp := format04X (crc16 bs)
    [crc_tmp.getD 2 0, crc_tmp.getD 3 0, crc_tmp.getD 0 0, crc_tmp.getD 1 0]

/-- `generate_message(payload, include_message_id, id)`, with the draw of
`random.randint(0, 65535)` passed in as `rnd`.  Returns the pair
`(id, m)` of the source: the correlation-id string actually used and the
hex message `id + text_to_hex(payload)`. -/
def generate_message (payload : List Nat) (include_message_id : Bool)
    (id : Option (List Nat)) (rnd : Nat) : Option (List Nat) × List Nat :=
  if include_message_id then
    let idStr := match id with
      | some s => s
      | none => randIdStr rnd
    (some idStr, idStr ++ text_to_hex payload)
  else (id, text_to_hex payload)

/-! ## Frame codec and transport (`encode_send_request`,
`receive_decode_answer`) -/

/-- The wire frame built by `encode_send_request` before the
`serialPort.write` call: `"%0.2X" % opcode` + `data` + swapped CRC, the
whole hex string expanded to ASCII-hex once more, wrapped between the
raw STX/ETX bytes, and uppercased.  `none` models the exception raised
by `_generate_crc` / `unhexlify` on a malformed hex argument. -/
def encode_send_request_frame (opcode : Nat) (data : List Nat) : Option (List Nat) :=
  let msg := format02X opcode ++ data
  match generate_crc msg with
  | none => none
  | some crc =>
    let msg1 := msg ++ crc
    let msgHex := hexlify msg1
    let full := text_to_hex [STXb] ++ msgHex ++ text_to_hex [ETXb]
    match unhexlify full with
    | none => none
    | some frame => some (frame.map byteUpper)

/-- `encode_send_request(opcode, data)` with the value returned by
`self._serialPort.write(msg)` passed in as `writeResult` (`none` models
the port returning `None`).  `ANS_STATUS_DATA_SENT` whenever the write
returned a byte count, `ANS_STATUS_HW_ERR` when it returned `None`. -/
def encode_send_request (opcode : Nat) (data : List Nat)
    (writeResult : Option Nat) : Option Nat :=
  match encode_send_request_frame opcode data with
  | none => none
  | some _msg =>
    match writeResult with
    | some _message_len => some ANS_STATUS_DATA_SENT
    | none => some ANS_STATUS_HW_ERR

/-- The byte-capture loop of `receive_decode_answer`: one step per byte
the port delivers before the deadline; exhausting `stream` models the
timeout.  A STX byte switches capturing on, captured bytes are appended,
and an ETX byte stops the loop immediately - the ETX test is not guarded
by the capturing flag. -/
def captureLoop : List Nat → Bool → List Nat → List Nat
  | [], _, message_buffer => message_buffer
  | b :: rest, do_capture, message_buffer =>
    let dc := if b = STXb then true else do_capture
    let buf := if dc then message_buffer ++ [b] else message_buffer
    if b = ETXb then buf else captureLoop rest dc buf

/-- The decoding tail of `receive_decode_answer`, applied to the captured
buffer.  Result: `(ret_val, opcode, data)`; `none` models an exception
(`unhexlify` on malformed hex, or indexing an empty / 1-byte body). -/
def decode_captured (message_buffer : List Nat) : Option (Nat × Option Nat × Option (List Nat)) :=
  if message_buffer.length > 6 then
    let message := (message_buffer.drop 1).take (message_buffer.length - 6)
    let cmd_crc_check := (message_buffer.drop (message_buffer.length - 5)).take 4
    match unhexlify message with
    | none => none
    | some com_buf_astronode =>
      match generate_crc message with
      | none => none
      | some cmd_crc =>
        if cmd_crc = cmd_crc_check then
          match com_buf_astronode with
          | [] => none
          | b0 :: rest =>
            if b0 = ERR_RA then
              match rest.get? 0, rest.get? 1 with
              | some b1, some b2 => some ((b2 <<< 8) + b1, none, none)
              | _, _ => none
            else
              some (ANS_STATUS_DATA_RECEIVED, some b0, some rest)
        else
          some (ANS_STATUS_CRC_NOT_VALID, none, none)
  else
    some (ANS_STATUS_TIMEOUT, none, none)

/-- `receive_decode_answer()`, with the byte stream the port delivers
before the deadline passed in as `stream`. -/
def receive_decode_answer (stream : List Nat) : Option (Nat × Option Nat × Option (List Nat)) :=
  decode_captured (captureLoop stream false [])

/-! ## Driver operations

Each operation is parametrised by the two transport effects of its single
transaction: `w`, the value `UART.write` returns inside
`encode_send_request`, and `stream`, the bytes the port delivers to
`receive_decode_answer` before its deadline. -/

/-- The decoded configuration structure (`ASTRONODE_CONFIG`).  The flag
fields hold the masked byte values exactly as the source stores them. -/
structure ASTRONODE_CONFIG where
  product_id : Nat
  hardware_rev : Nat
  firmware_maj_ver : Nat
  firmware_min_ver : Nat
  firmware_rev : Nat
  with_pl_ack : Nat
  with_geoloc : Nat
  with_ephemeris : Nat
  with_deep_sleep_en : Nat
  with_msg_ack_pin_en : Nat
  with_msg_reset_pin_en : Nat
  deriving Repr, DecidableEq

/-- `configuration_read()`: returns `(ret_val, config)`; `none` models an
exception (a decoded answer body shorter than its fixed layout). -/
def configuration_read (w : Option Nat) (stream : List Nat) :
    Option (Nat × Option ASTRONODE_CONFIG) :=
  let reg := CFG_RR
  match encode_send_request reg [] w with
  | none => none
  | some ret_val =>
    if ret_val = ANS_STATUS_DATA_SENT then
      match receive_decode_answer stream with
      | none => none
      | some (rv, opcode, dataOpt) =>
        if rv = ANS_STATUS_DATA_RECEIVED ∧ opcode = some CFG_RA then
          match dataOpt with
          | none => none
          | some data =>
            match data.get? 0, data.get? 1, data.get? 2, data.get? 3,
                  data.get? 4, data.get? 5, data.get? 7 with
            | some d0, some d1, some d2, some d3, some d4, some d5, some d7 =>
              some (ANS_STATUS_SUCCESS, some
                { product_id := d0, hardware_rev := d1,
                  firmware_maj_ver := d2, firmware_min_ver := d3,
                  firmware_rev := d4,
                  with_pl_ack := d5 &&& (1 <<< 0),
                  with_geoloc := d5 &&& (1 <<< 1),
                  with_ephemeris := d5 &&& (1 <<< 2),
                  with_deep_sleep_en := d5 &&& (1 <<< 3),
                  with_msg_ack_pin_en := d7 &&& (1 <<< 0),
                  with_msg_reset_pin_en := d7 &&& (1 <<< 1) })
            | _, _, _, _, _, _, _ => none
        else some (rv, none)
    else some (ret_val, none)

/-- `configuration_save()`. -/
def configuration_save (w : Option Nat) (stream : List Nat) : Option Nat :=
  let reg := CFG_SR
  match encode_send_request reg [] w with
  | none => none
  | some ret_val =>
    if ret_val = ANS_STATUS_DATA_SENT then
      match receive_decode_answer stream with
      | none => none
      | some (rv, opcode, _data) =>
        if rv = ANS_STATUS_DATA_RECEIVED ∧ opcode = some CFG_SA then
          some ANS_STATUS_SUCCESS
        else some rv
    else some ret_val

/-- `factory_reset()`: note that the success test of the source compares
`reg` (the request opcode `CFG_FR`) with `CFG_FA`, not the decoded
answer opcode. -/
def factory_reset (w : Option Nat) (stream : List Nat) : Option Nat :=
  let reg := CFG_FR
  match encode_send_request reg [] w with
  | none => none
  | some ret_val =>
    if ret_val = ANS_STATUS_DATA_SENT then
      match receive_decode_answer stream with
      | none => none
      | some (rv, _opcode, _data) =>
        if rv = ANS_STATUS_DATA_RECEIVED ∧ reg = CFG_FA then
          some ANS_STATUS_SUCCESS
        else some rv
    else some ret_val

/-- `guid_read()`: the source ends with `return (ret_val, guid.decode())`
where `guid` is still `None` on every non-success path, so those paths
raise `AttributeError` (modelled by `none`) instead of returning the
status. -/
def guid_read (w : Option Nat) (stream : List Nat) : Option (Nat × List Nat) :=
  let reg := MGI_RR
  match encode_send_request reg [] w with
  | none => none
  | some ret_val =>
    if ret_val = ANS_STATUS_DATA_SENT then
      match receive_decode_answer stream with
      | none => none
      | some (rv, opcode, data) =>
        if rv = ANS_STATUS_DATA_RECEIVED ∧ opcode = some MGI_RA then
          match data with
          | some guid => some (ANS_STATUS_SUCCESS, guid)
          | none => none
        else none
    else none

/-- `serial_number_read()`: same `sn.decode()`-on-`None` shape as
`guid_read`. -/
def serial_number_read (w : Option Nat) (stream : List Nat) : Option (Nat × List Nat) :=
  let reg := MSN_RR
  match encode_send_request reg [] w with
  | none => none
  | some ret_val =>
    if ret_val = ANS_STATUS_DATA_SENT then
      match receive_decode_answer stream with
      | none => none
      | some (rv, opcode, data) =>
        if rv = ANS_STATUS_DATA_RECEIVED ∧ opcode = some MSN_RA then
          match data with
          | some sn => some (ANS_STATUS_SUCCESS, sn)
          | none => none
        else none
    else none

/-- `product_number_read()`: same `pn.decode()`-on-`None` shape as
`guid_read`. -/
def product_number_read (w : Option Nat) (stream : List Nat) : Option (Nat × List Nat) :=
  let reg := MPN_RR
  match encode_send_request reg [] w with
  | none => none
  | some ret_val =>
    if ret_val = ANS_STATUS_DATA_SENT then
      match receive_decode_answer stream with
      | none => none
      | some (rv, opcode, data) =>
        if rv = ANS_STATUS_DATA_RECEIVED ∧ opcode = some MPN_RA then
          match data with
          | some pn => some (ANS_STATUS_SUCCESS, pn)
          | none => none
        else none
    else none

/-- `rtc_read()`: on a matching answer the time is the 4-byte
little-endian value of the payload plus `ASTROCAST_REF_UNIX_TIME`. -/
def rtc_read (w : Option Nat) (stream : List Nat) : Option (Nat × Option Nat) :=
  let reg := RTC_RR
  match encode_send_request reg [] w with
  | none => none
  | some ret_val =>
    if ret_val = ANS_STATUS_DATA_SENT then
      match receive_decode_answer stream with
      | none => none
      | some (rv, opcode, dataOpt) =>
        if rv = ANS_STATUS_DATA_RECEIVED ∧ opcode = some RTC_RA then
          match dataOpt with
          | none => none
          | some data =>
            match data.get? 3, data.get? 2, data.get? 1, data.get? 0 with
            | some d3, some d2, some d1, some d0 =>
              some (ANS_STATUS_SUCCESS,
                some ((d3 <<< 24) + (d2 <<< 16) + (d1 <<< 8) + (d0 <<< 0) +
                  ASTROCAST_REF_UNIX_TIME))
            | _, _, _, _ => none
        else some (rv, none)
    else some (ret_val, none)

/-- A dynamically typed Python value, needed only for the `id == id_check`
comparison of `enqueue_payload`, which compares a `str` with an `int`. -/
inductive PyVal where
  | pstr (s : List Nat)
  | pint (n : Nat)

/-- Python `==` on dynamically typed values: values of different types
are never equal. -/
def pyEq : PyVal → PyVal → Bool
  | PyVal.pstr a, PyVal.pstr b => a = b
  | PyVal.pint a, PyVal.pint b => a = b
  | _, _ => false

/-- `enqueue_payload(data, id)`, with the random draw passed as `rnd`.
The correlation id kept in `id` is the 4-character hex *string* while
`id_check` is the *integer* decoded from the answer, so the comparison is
Python `str == int`. -/
def enqueue_payload (data : List Nat) (id : Option (List Nat)) (rnd : Nat)
    (w : Option Nat) (stream : List Nat) : Option (Nat × Option (List Nat)) :=
  if data.length <= ASN_MAX_MSG_SIZE then
    match generate_message data true id rnd with
    | (message_id, message) =>
      let reg := PLD_ER
      match encode_send_request reg message w with
      | none => none
      | some ret_val =>
        if ret_val = ANS_STATUS_DATA_SENT then
          match receive_decode_answer stream with
          | none => none
          | some (rv, opcode, dataOpt) =>
            if rv = ANS_STATUS_DATA_RECEIVED ∧ opcode = some PLD_EA then
              match dataOpt with
              | none => none
              | some d =>
                match d.get? 1, d.get? 0 with
                | some b1, some b0 =>
                  let id_check := (b1 <<< 8) + b0
                  -- the id variable holds the string message_id here
                  -- (include_message_id is True, so it is never None)
                  if pyEq (PyVal.pstr (message_id.getD [])) (PyVal.pint id_check) then
                    some (ANS_STATUS_SUCCESS, message_id)
                  else
                    some (ANS_STATUS_PAYLOAD_ID_CHECK_FAILED, message_id)
                | _, _ => none
            else some (rv, message_id)
        else some (ret_val, message_id)
  else
    some (ANS_STATUS_PAYLOAD_TOO_LONG, id)

/-- `dequeue_payload()`. -/
def dequeue_payload (w : Option Nat) (stream : List Nat) : Option (Nat × Option Nat) :=
  let reg := PLD_DR
  match encode_send_request reg [] w with
  | none => none
  | some ret_val =>
    if ret_val = ANS_STATUS_DATA_SENT then
      match receive_decode_answer stream with
      | none => none
      | some (rv, opcode, dataOpt) =>
        if rv = ANS_STATUS_DATA_RECEIVED ∧ opcode = some PLD_DA then
          match dataOpt with
          | none => none
          | some d =>
            match d.get? 1, d.get? 0 with
            | some b1, some b0 => some (ANS_STATUS_SUCCESS, some ((b1 <<< 8) + b0))
            | _, _ => none
        else some (rv, none)
    else some (ret_val, none)

/-- `clear_free_payloads()`. -/
def clear_free_payloads (w : Option Nat) (stream : List Nat) : Option Nat :=
  let reg := PLD_FR
  match encode_send_request reg [] w with
  | none => none
  | some ret_val =>
    if ret_val = ANS_STATUS_DATA_SENT then
      match receive_decode_answer stream with
      | none => none
      | some (rv, opcode, _data) =>
        if rv = ANS_STATUS_DATA_RECEIVED ∧ opcode = some PLD_FA then
          some ANS_STATUS_SUCCESS
        else some rv
    else some ret_val

/-! ## Basic facts about the checksum engine -/

theorem crc16_update_lt (crc byte : Nat) : crc16_update crc byte < 65536 :=
  Nat.mod_lt _ (by norm_num)

theorem foldl_crc16_update_lt : ∀ (l : List Nat) (acc : Nat), acc < 65536 →
    List.foldl crc16_update acc l < 65536
  | [], _, h => h
  | b :: rest, acc, _ =>
    foldl_crc16_update_lt rest (crc16_update acc b) (crc16_update_lt acc b)

theorem crc16_lt (data : List Nat) : crc16 data < 65536 :=
  foldl_crc16_update_lt data 0xFFFF (by norm_num)

/-! ## Facts about the ASCII-hex domain -/

theorem hexDigitVal_some_facts {c v : Nat} (h : hexDigitVal c = some v) :
    48 <= c ∧ c <= 102 ∧ v < 16 := by
  unfold hexDigitVal at h
  split_ifs at h <;>
    first
      | (injection h with h; omega)
      | exact Option.noConfusion h

theorem hexDigitVal_hexCharLower {n : Nat} (h : n < 16) :
    hexDigitVal (hexCharLower n) = some n := by
  unfold hexDigitVal hexCharLower
  split_ifs <;> first | (congr 1; omega) | (exfalso; omega)

theorem hexDigitVal_hexCharUpper {n : Nat} (h : n < 16) :
    hexDigitVal (hexCharUpper n) = some n := by
  unfold hexDigitVal hexCharUpper
  split_ifs <;> first | (congr 1; omega) | (exfalso; omega)

theorem hexDigitVal_byteUpper (c : Nat) :
    hexDigitVal (byteUpper c) = hexDigitVal c := by
  by_cases hc : 97 <= c ∧ c <= 122
  · rw [byteUpper, if_pos hc]
    unfold hexDigitVal
    split_ifs <;> first | rfl | (congr 1; omega) | (exfalso; omega)
  · rw [byteUpper, if_neg hc]

theorem byteUpper_eq_of_lt {c : Nat} (h : c < 97) : byteUpper c = c := by
  unfold byteUpper
  rw [if_neg (by omega)]

theorem hexCharUpper_bounds {n : Nat} (h : n < 16) :
    48 <= hexCharUpper n ∧ hexCharUpper n <= 70 := by
  unfold hexCharUpper
  split_ifs <;> omega

/-! ## Round-trip facts about `unhexlify` / `hexlify` -/

theorem unhexlify_hexlify : ∀ (bs : List Nat), (∀ b ∈ bs, b < 256) →
    unhexlify (hexlify bs) = some bs
  | [], _ => rfl
  | b :: rest, h => by
    have hb : b < 256 := h b (List.mem_cons_self b rest)
    have hmod : b % 256 = b := Nat.mod_eq_of_lt hb
    have hrest : unhexlify (hexlify rest) = some rest :=
      unhexlify_hexlify rest fun x hx => h x (List.mem_cons_of_mem b hx)
    show unhexlify (hexCharLower (b % 256 / 16) :: hexCharLower (b % 16) :: hexlify rest) = _
    rw [unhexlify, hexDigitVal_hexCharLower (show b % 256 / 16 < 16 by omega),
      hexDigitVal_hexCharLower (show b % 16 < 16 by omega), hrest]
    show some ((b % 256 / 16 * 16 + b % 16) :: rest) = some (b :: rest)
    rw [show b % 256 / 16 * 16 + b % 16 = b by omega]

theorem unhexlify_append : ∀ (xs ys as : List Nat), unhexlify xs = some as →
    unhexlify (xs ++ ys) = (unhexlify ys).map fun bs => as ++ bs
  | [], ys, as, h => by
    rw [show unhexlify [] = some [] from rfl, Option.some.injEq] at h
    subst h
    rw [List.nil_append]
    cases hy : unhexlify ys <;> simp [hy]
  | [_], _, _, h => Option.noConfusion h
  | c1 :: c2 :: rest, ys, as, h => by
    rw [List.cons_append, List.cons_append]
    rw [unhexlify] at h ⊢
    cases h1 : hexDigitVal c1
    case none => rw [h1] at h; exact Option.noConfusion h
    case some hi =>
      rw [h1] at h
      cases h2 : hexDigitVal c2
      case none => rw [h2] at h; exact Option.noConfusion h
      case some lo =>
        rw [h2] at h
        cases h3 : unhexlify rest
        case none => rw [h3] at h; exact Option.noConfusion h
        case some bs =>
          rw [h3] at h
          injection h with h4
          subst h4
          rw [unhexlify_append rest ys bs h3]
          cases hy : unhexlify ys <;> simp [hy]

theorem unhexlify_map_byteUpper : ∀ (xs : List Nat),
    unhexlify (xs.map byteUpper) = unhexlify xs
  | [] => rfl
  | [_] => rfl
  | c1 :: c2 :: rest => by
    simp only [List.map_cons, unhexlify, hexDigitVal_byteUpper,
      unhexlify_map_byteUpper rest]

theorem unhexlify_mem_range : ∀ (xs as : List Nat), unhexlify xs = some as →
    ∀ c ∈ xs, 48 <= c ∧ c <= 102
  | [], _, _, _, hc => absurd hc (List.not_mem_nil _)
  | [_], _, h, _, _ => Option.noConfusion h
  | c1 :: c2 :: rest, as, h, c, hc => by
    rw [unhexlify] at h
    cases h1 : hexDigitVal c1
    case none => rw [h1] at h; exact Option.noConfusion h
    case some hi =>
      rw [h1] at h
      cases h2 : hexDigitVal c2
      case none => rw [h2] at h; exact Option.noConfusion h
      case some lo =>
        rw [h2] at h
        cases h3 : unhexlify rest
        case none => rw [h3] at h; exact Option.noConfusion h
        case some bs =>
          rcases hc with _ | ⟨_, hc⟩
          · exact ⟨(hexDigitVal_some_facts h1).1, (hexDigitVal_some_facts h1).2.1⟩
          rcases hc with _ | ⟨_, hc⟩
          · exact ⟨(hexDigitVal_some_facts h2).1, (hexDigitVal_some_facts h2).2.1⟩
          exact unhexlify_mem_range rest bs h3 c hc

/-! ## The hex rendering of opcode and CRC -/

theorem hexDigitsUpperGo_fuel : ∀ (f1 f2 n : Nat), n < f1 → n < f2 →
    hexDigitsUpperGo f1 n = hexDigitsUpperGo f2 n
  | 0, _, n, h1, _ => absurd h1 (Nat.not_lt_zero n)
  | _ + 1, 0, n, _, h2 => absurd h2 (Nat.not_lt_zero n)
  | f1 + 1, f2 + 1, n, h1, h2 => by
    rw [hexDigitsUpperGo, hexDigitsUpperGo]
    by_cases h16 : n < 16
    · rw [if_pos h16, if_pos h16]
    · rw [if_neg h16, if_neg h16,
        hexDigitsUpperGo_fuel f1 f2 (n / 16) (by omega) (by omega)]

/-- The recursion `'%X'` actually performs, recovered from the fuelled
definition. -/
theorem hexDigitsUpper_unfold (n : Nat) :
    hexDigitsUpper n = if n < 16 then [hexCharUpper n]
      else hexDigitsUpper (n / 16) ++ [hexCharUpper (n % 16)] := by
  rw [hexDigitsUpper, hexDigitsUpperGo]
  by_cases h16 : n < 16
  · rw [if_pos h16, if_pos h16]
  · rw [if_neg h16, if_neg h16, hexDigitsUpper,
      hexDigitsUpperGo_fuel n (n / 16 + 1) (n / 16) (by omega) (by omega)]

theorem hexDigitsUpper_of_lt {n : Nat} (h : n < 16) :
    hexDigitsUpper n = [hexCharUpper n] := by
  rw [hexDigitsUpper_unfold, if_pos h]

theorem format02X_eq {n : Nat} (h : n < 256) :
    format02X n = [hexCharUpper (n / 16), hexCharUpper (n % 16)] := by
  rcases Nat.lt_or_ge n 16 with h16 | h16
  · rw [format02X, hexDigitsUpper_of_lt h16]
    have h1 : n / 16 = 0 := Nat.div_eq_of_lt h16
    have h2 : n % 16 = n := Nat.mod_eq_of_lt h16
    simp [h1, h2, hexCharUpper]
  · have hu : hexDigitsUpper n = [hexCharUpper (n / 16), hexCharUpper (n % 16)] := by
      rw [hexDigitsUpper_unfold, if_neg (show ¬ n < 16 by omega),
        hexDigitsUpper_of_lt (show n / 16 < 16 by omega)]
      rfl
    rw [format02X, hu]
    simp

theorem unhexlify_format02X {n : Nat} (h : n < 256) :
    unhexlify (format02X n) = some [n] := by
  rw [format02X_eq h, unhexlify,
    hexDigitVal_hexCharUpper (show n / 16 < 16 by omega),
    hexDigitVal_hexCharUpper (show n % 16 < 16 by omega)]
  show some ([n / 16 * 16 + n % 16]) = some [n]
  rw [show n / 16 * 16 + n % 16 = n by omega]

theorem generate_crc_eq {xs bs : List Nat} (h : unhexlify xs = some bs) :
    generate_crc xs = some
      [hexCharUpper (crc16 bs / 16 % 16), hexCharUpper (crc16 bs % 16),
       hexCharUpper (crc16 bs / 4096 % 16), hexCharUpper (crc16 bs / 256 % 16)] := by
  rw [generate_crc, h, Option.map_some']
  rfl

/-- Every character of the swapped CRC string is an uppercase hex digit,
in particular in the printable range `[48, 70]`. -/
theorem generate_crc_mem_range {xs bs c : List Nat} (hx : unhexlify xs = some bs)
    (h : generate_crc xs = some c) : ∀ b ∈ c, 48 <= b ∧ b <= 70 := by
  rw [generate_crc_eq hx] at h
  rw [Option.some.injEq] at h
  subst h
  intro b hb
  rcases hb with _ | ⟨_, hb⟩
  · exact hexCharUpper_bounds (Nat.mod_lt _ (by norm_num))
  rcases hb with _ | ⟨_, hb⟩
  · exact hexCharUpper_bounds (Nat.mod_lt _ (by norm_num))
  rcases hb with _ | ⟨_, hb⟩
  · exact hexCharUpper_bounds (Nat.mod_lt _ (by norm_num))
  rcases hb with _ | ⟨_, hb⟩
  · exact hexCharUpper_bounds (Nat.mod_lt _ (by norm_num))
  exact absurd hb (List.not_mem_nil b)

theorem generate_crc_length {xs c : List Nat} (h : generate_crc xs = some c) :
    c.length = 4 := by
  rw [generate_crc] at h
  cases hx : unhexlify xs
  case none => rw [hx] at h; exact Option.noConfusion h
  case some bs =>
    rw [hx, Option.map_some', Option.some.injEq] at h
    subst h
    rfl

theorem map_byteUpper_id_of_range : ∀ (c : List Nat),
    (∀ b ∈ c, 48 <= b ∧ b <= 70) → c.map byteUpper = c
  | [], _ => rfl
  | a :: t, h => by
    have ha := h a (List.mem_cons_self a t)
    rw [List.map_cons, byteUpper_eq_of_lt (by omega),
      map_byteUpper_id_of_range t fun b hb => h b (List.mem_cons_of_mem a hb)]

/-- `bytes.upper()` is the identity on the swapped CRC string. -/
theorem map_byteUpper_generate_crc {xs bs c : List Nat} (hx : unhexlify xs = some bs)
    (h : generate_crc xs = some c) : c.map byteUpper = c :=
  map_byteUpper_id_of_range c (generate_crc_mem_range hx h)

/-! ## The capture loop -/

theorem captureLoop_append_of_no_etx : ∀ (mid buf : List Nat),
    (∀ b ∈ mid, b ≠ ETXb) →
    captureLoop (mid ++ [ETXb]) true buf = buf ++ mid ++ [ETXb]
  | [], buf, _ => by
    show captureLoop [ETXb] true buf = buf ++ [] ++ [ETXb]
    rw [captureLoop]
    simp [ETXb, STXb]
  | b :: mid, buf, h => by
    have hb : b ≠ ETXb := h b (List.mem_cons_self b mid)
    rw [List.cons_append, captureLoop]
    simp only [ite_self, if_neg hb, if_true, ite_true]
    rw [captureLoop_append_of_no_etx mid (buf ++ [b])
      fun x hx => h x (List.mem_cons_of_mem b hx)]
    simp

theorem captureLoop_frame (mid : List Nat) (h : ∀ b ∈ mid, b ≠ ETXb) :
    captureLoop (STXb :: mid ++ [ETXb]) false [] = STXb :: mid ++ [ETXb] := by
  rw [List.cons_append, captureLoop]
  simp only [if_pos rfl, if_pos trivial]
  rw [if_neg (show ¬ STXb = ETXb by decide)]
  rw [captureLoop_append_of_no_etx mid ([] ++ [STXb]) h]
  simp

/-! ## Structure of an encoded frame -/

theorem hexlify_append (a b : List Nat) :
    hexlify (a ++ b) = hexlify a ++ hexlify b :=
  List.flatMap_append a b _

theorem generate_crc_isSome {xs c : List Nat} (h : generate_crc xs = some c) :
    ∃ bs, unhexlify xs = some bs := by
  rw [generate_crc] at h
  cases hx : unhexlify xs
  case none => rw [hx] at h; exact Option.noConfusion h
  case some bs => exact ⟨bs, rfl⟩

theorem generate_crc_map_byteUpper (xs : List Nat) :
    generate_crc (xs.map byteUpper) = generate_crc xs := by
  rw [generate_crc, generate_crc, unhexlify_map_byteUpper]

theorem encode_frame_struct {opcode : Nat} {data crc : List Nat}
    (hcrc : generate_crc (format02X opcode ++ data) = some crc) :
    encode_send_request_frame opcode data =
      some (STXb :: (format02X opcode ++ data ++ crc).map byteUpper ++ [ETXb]) := by
  obtain ⟨bs, hbs⟩ := generate_crc_isSome hcrc
  have hmem_msg := unhexlify_mem_range _ _ hbs
  have hmem_crc := generate_crc_mem_range hbs hcrc
  have hfull : unhexlify (text_to_hex [STXb] ++
      hexlify (format02X opcode ++ data ++ crc) ++ text_to_hex [ETXb]) =
      some ([STXb] ++ (format02X opcode ++ data ++ crc) ++ [ETXb]) := by
    rw [text_to_hex, text_to_hex, ← hexlify_append, ← hexlify_append]
    apply unhexlify_hexlify
    intro b hb
    rcases List.mem_append.mp hb with hb | hb
    · rcases List.mem_append.mp hb with hb | hb
      · rcases hb with _ | ⟨_, hb⟩
        · decide
        exact absurd hb (List.not_mem_nil b)
      · rcases List.mem_append.mp hb with hb | hb
        · have := hmem_msg b hb
          omega
        · have := hmem_crc b hb
          omega
    · rcases hb with _ | ⟨_, hb⟩
      · decide
      exact absurd hb (List.not_mem_nil b)
  simp only [encode_send_request_frame, hcrc, hfull]
  have hup2 : byteUpper STXb = STXb := by decide
  have hup3 : byteUpper ETXb = ETXb := by decide
  simp [List.map_append, hup2, hup3]

/-! ## Decoding an encoded frame -/

theorem receive_decode_encoded_frame {opcode : Nat} {data bs frame : List Nat}
    (hop : opcode < 256) (hne : opcode ≠ ERR_RA)
    (hdata : unhexlify data = some bs)
    (hframe : encode_send_request_frame opcode data = some frame) :
    receive_decode_answer frame = some (ANS_STATUS_DATA_RECEIVED, some opcode, some bs) ∧
    generate_crc ((frame.drop 1).take (frame.length - 6)) =
      some ((frame.drop (frame.length - 5)).take 4) := by
  have hmsg : unhexlify (format02X opcode ++ data) = some (opcode :: bs) := by
    rw [unhexlify_append _ data [opcode] (unhexlify_format02X hop), hdata]
    rfl
  have hcrc_ex : ∃ crc, generate_crc (format02X opcode ++ data) = some crc := by
    rw [generate_crc, hmsg]
    exact ⟨_, rfl⟩
  obtain ⟨crc, hcrc⟩ := hcrc_ex
  have hfr : frame = STXb :: (format02X opcode ++ data ++ crc).map byteUpper ++ [ETXb] := by
    have := encode_frame_struct hcrc
    rw [hframe, Option.some.injEq] at this
    exact this
  have hcrcid : crc.map byteUpper = crc := map_byteUpper_generate_crc hmsg hcrc
  have hAsplit : (format02X opcode ++ data ++ crc).map byteUpper =
      (format02X opcode ++ data).map byteUpper ++ crc := by
    rw [List.map_append, hcrcid]
  have hmem_msg := unhexlify_mem_range _ _ hmsg
  have hmem_crc := generate_crc_mem_range hmsg hcrc
  have hcrc_len : crc.length = 4 := generate_crc_length hcrc
  have hA_len : ((format02X opcode ++ data).map byteUpper).length =
      (format02X opcode ++ data).length := List.length_map _ _
  have h02 : (format02X opcode).length = 2 := by
    rw [format02X_eq hop]
    rfl
  have hfr_len : frame.length = (format02X opcode ++ data).length + 6 := by
    rw [hfr, hAsplit]
    simp [hcrc_len]
    omega
  have hmsg_min : 2 <= (format02X opcode ++ data).length := by
    rw [List.length_append, h02]
    omega
  have hno3 : ∀ b ∈ (format02X opcode ++ data ++ crc).map byteUpper, b ≠ ETXb := by
    rw [hAsplit]
    intro b hb
    rcases List.mem_append.mp hb with hb | hb
    · obtain ⟨c, hc, rfl⟩ := List.mem_map.mp hb
      have := hmem_msg c hc
      unfold byteUpper ETXb
      split_ifs <;> omega
    · have := hmem_crc b hb
      unfold ETXb
      omega
  have hcap : captureLoop frame false [] = frame := by
    rw [hfr]
    exact captureLoop_frame _ hno3
  have hgt : frame.length > 6 := by omega
  have hmsg_slice : (frame.drop 1).take (frame.length - 6) =
      (format02X opcode ++ data).map byteUpper := by
    have h6 : frame.length - 6 = (format02X opcode ++ data).length := by omega
    rw [h6, hfr, hAsplit, List.cons_append]
    rw [List.drop_one, List.tail_cons, List.append_assoc]
    exact List.take_left' hA_len
  have hcrc_slice : (frame.drop (frame.length - 5)).take 4 = crc := by
    have h5 : frame.length - 5 = (format02X opcode ++ data).length + 1 := by omega
    rw [h5, hfr, hAsplit, List.cons_append, List.drop_succ_cons, List.append_assoc,
      List.drop_left' hA_len]
    exact List.take_left' hcrc_len
  constructor
  · rw [receive_decode_answer, hcap]
    simp only [decode_captured, hmsg_slice, hcrc_slice, hgt,
      unhexlify_map_byteUpper, hmsg, generate_crc_map_byteUpper, hcrc]
    simp [hne]
  · rw [hmsg_slice, hcrc_slice, generate_crc_map_byteUpper, hcrc]

/-! ## Shape of the decode result -/

theorem decode_captured_shape (buf : List Nat) (v : Nat) (op : Option Nat)
    (d : Option (List Nat)) (h : decode_captured buf = some (v, op, d)) :
    (v = ANS_STATUS_DATA_RECEIVED ∧ ∃ b rest, op = some b ∧ d = some rest) ∨
    (op = none ∧ d = none) := by
  rw [decode_captured] at h
  dsimp only at h
  repeat' split at h
  all_goals first
    | exact Option.noConfusion h
    | (rw [Option.some.injEq, Prod.mk.injEq] at h
       obtain ⟨h1, h2⟩ := h
       rw [Prod.mk.injEq] at h2
       obtain ⟨h2, h3⟩ := h2
       subst h1
       subst h2
       subst h3
       first
         | exact Or.inr ⟨rfl, rfl⟩
         | exact Or.inl ⟨rfl, _, _, rfl, rfl⟩)

/-- A decoded status of `ANS_STATUS_SUCCESS` can only come out of the
terminal-error branch of `receive_decode_answer` (an `ERR_RA` frame whose
16-bit code happens to be `0x7000`); it never carries an opcode or a
payload. -/
theorem receive_decode_success_shape (stream : List Nat) (v : Nat)
    (op : Option Nat) (d : Option (List Nat))
    (h : receive_decode_answer stream = some (v, op, d))
    (hv : v = ANS_STATUS_SUCCESS) : op = none ∧ d = none := by
  rcases decode_captured_shape _ _ _ _ h with ⟨hveq, _⟩ | hshape
  · subst hv
    exact absurd hveq (by decide)
  · exact hshape

/-! ## Claim theorems -/

/-- C4: `_crc16` is a pure function of its input; it starts from
accumulator `0xFFFF` (the empty input returns `0xFFFF` unchanged), every
update step is masked to 16 bits (so every intermediate and final value is
below `65536`), and on the bytes of `b"123456789"` it returns the CCITT
reference value `0x29B1`. -/
theorem crc16_spec :
    crc16 [] = 0xFFFF ∧
    crc16 [0x31, 0x32, 0x33, 0x34, 0x35, 0x36, 0x37, 0x38, 0x39] = 0x29B1 ∧
    (∀ data : List Nat, crc16 data < 65536) ∧
    (∀ crc byte : Nat, crc16_update crc byte < 65536) :=
  ⟨rfl, by decide, crc16_lt, crc16_update_lt⟩

/-- C10: an ETX byte delivered before any STX stops the capture loop at
once - the ETX test is not guarded by the capturing flag - so the buffer
stays empty and the call reports `ANS_STATUS_TIMEOUT`, whatever complete
valid frame follows in the stream. -/
theorem etx_before_stx_times_out (rest : List Nat) :
    captureLoop (ETXb :: rest) false [] = [] ∧
    receive_decode_answer (ETXb :: rest) = some (ANS_STATUS_TIMEOUT, none, none) := by
  have hcap : captureLoop (ETXb :: rest) false [] = [] := by
    rw [captureLoop]
    simp [STXb, ETXb]
  refine ⟨hcap, ?_⟩
  rw [receive_decode_answer, hcap]
  rfl

/-- C5 (amended): a captured buffer of 6 bytes or fewer - including the
6-byte case of markers plus 4-character CRC - is reported as
`ANS_STATUS_TIMEOUT`; the shortest captured frame that is decoded is 8
bytes (markers, 2 opcode hex characters, 4 CRC characters). -/
theorem short_capture_is_timeout :
    (∀ stream : List Nat, (captureLoop stream false []).length <= 6 →
      receive_decode_answer stream = some (ANS_STATUS_TIMEOUT, none, none)) ∧
    ((encode_send_request_frame CFG_RA []).getD []).length = 8 ∧
    receive_decode_answer ((encode_send_request_frame CFG_RA []).getD []) =
      some (ANS_STATUS_DATA_RECEIVED, some CFG_RA, some []) := by
  refine ⟨?_, by decide, by decide⟩
  intro stream hlen
  rw [receive_decode_answer, decode_captured, if_neg (by omega)]

theorem short_capture_is_timeout_witness :
    (captureLoop ([] : List Nat) false []).length <= 6 ∧
    receive_decode_answer [] = some (ANS_STATUS_TIMEOUT, none, none) :=
  ⟨by decide, short_capture_is_timeout.1 [] (by decide)⟩

/-- C5 counterexample: the captured 6-byte frame
`STX 'F' 'F' 'F' 'F' ETX` (the minimum length the claim says is accepted
into CRC verification) is in fact reported as `ANS_STATUS_TIMEOUT`. -/
theorem six_byte_frame_counterexample :
    [STXb, 70, 70, 70, 70, ETXb].length = 6 ∧
    receive_decode_answer [STXb, 70, 70, 70, 70, ETXb] =
      some (ANS_STATUS_TIMEOUT, none, none) := by decide

/-- C6 (amended): `encode_send_request` reports `ANS_STATUS_HW_ERR`
exactly when the port write returns `None`; whenever the write returns a
byte count - any byte count, including one smaller than the frame length -
the status is `ANS_STATUS_DATA_SENT`.  The count is never compared with
the frame length. -/
theorem send_status_spec (opcode : Nat) (data : List Nat)
    (h : (encode_send_request_frame opcode data).isSome) :
    (∀ n : Nat, encode_send_request opcode data (some n) = some ANS_STATUS_DATA_SENT) ∧
    encode_send_request opcode data none = some ANS_STATUS_HW_ERR := by
  rw [Option.isSome_iff_exists] at h
  obtain ⟨frame, hf⟩ := h
  constructor
  · intro n
    rw [encode_send_request, hf]
  · rw [encode_send_request, hf]

theorem send_status_spec_witness :
    (encode_send_request_frame CFG_RR []).isSome ∧
    encode_send_request CFG_RR [] (some 3) = some ANS_STATUS_DATA_SENT ∧
    encode_send_request CFG_RR [] none = some ANS_STATUS_HW_ERR :=
  ⟨by decide, (send_status_spec CFG_RR [] (by decide)).1 3,
    (send_status_spec CFG_RR [] (by decide)).2⟩

/-- C6 counterexample: the request frame for `CFG_RR` is 8 bytes long,
yet a write that reports only 3 bytes written still yields
`ANS_STATUS_DATA_SENT`, not `ANS_STATUS_HW_ERR`. -/
theorem short_write_counterexample :
    ((encode_send_request_frame CFG_RR []).getD []).length = 8 ∧
    3 < 8 ∧
    encode_send_request CFG_RR [] (some 3) = some ANS_STATUS_DATA_SENT ∧
    ANS_STATUS_DATA_SENT ≠ ANS_STATUS_HW_ERR := by decide

/-- C3 (amended): for every opcode byte other than the error marker
`ERR_RA = 0xFF` and every argument hex string, decoding the encoded frame
recovers the opcode and the bytes the hex string denotes, with status
`ANS_STATUS_DATA_RECEIVED`, and the CRC recomputed over the received body
equals the embedded CRC field. -/
theorem frame_roundtrip (opcode : Nat) (data bs : List Nat)
    (hop : opcode < 256) (hne : opcode ≠ ERR_RA)
    (hdata : unhexlify data = some bs) :
    ∃ frame, encode_send_request_frame opcode data = some frame ∧
      receive_decode_answer frame =
        some (ANS_STATUS_DATA_RECEIVED, some opcode, some bs) ∧
      generate_crc ((frame.drop 1).take (frame.length - 6)) =
        some ((frame.drop (frame.length - 5)).take 4) := by
  have hmsg : unhexlify (format02X opcode ++ data) = some (opcode :: bs) := by
    rw [unhexlify_append _ data [opcode] (unhexlify_format02X hop), hdata]
    rfl
  have hcrc_ex : ∃ crc, generate_crc (format02X opcode ++ data) = some crc := by
    rw [generate_crc, hmsg]
    exact ⟨_, rfl⟩
  obtain ⟨crc, hcrc⟩ := hcrc_ex
  exact ⟨_, encode_frame_struct hcrc,
    receive_decode_encoded_frame hop hne hdata (encode_frame_struct hcrc)⟩

theorem frame_roundtrip_witness :
    (0x95 : Nat) < 256 ∧ (0x95 : Nat) ≠ ERR_RA ∧
    unhexlify [49, 50, 51, 52] = some [0x12, 0x34] ∧
    ∃ frame, encode_send_request_frame 0x95 [49, 50, 51, 52] = some frame ∧
      receive_decode_answer frame =
        some (ANS_STATUS_DATA_RECEIVED, some 0x95, some [0x12, 0x34]) ∧
      generate_crc ((frame.drop 1).take (frame.length - 6)) =
        some ((frame.drop (frame.length - 5)).take 4) :=
  ⟨by decide, by decide, by decide,
    frame_roundtrip 0x95 [49, 50, 51, 52] [0x12, 0x34] (by decide) (by decide) (by decide)⟩

/-- C3 counterexample: encoding opcode `0xFF` (the `ERR_RA` marker) with
argument hex string `"2101"` and decoding the resulting frame does not
recover the pair: the decoder treats the frame as a terminal error report,
returns status `0x0121` and no opcode or data. -/
theorem frame_roundtrip_err_opcode_counterexample :
    unhexlify [50, 49, 48, 49] = some [0x21, 0x01] ∧
    receive_decode_answer ((encode_send_request_frame ERR_RA [50, 49, 48, 49]).getD []) =
      some (0x0121, none, none) ∧
    (0x0121 : Nat) ≠ ANS_STATUS_DATA_RECEIVED := by decide

/-- C1: contrary to the specification, the three identity reads cannot
report a failure status: on every path on which the transaction does not
succeed, the variable holding the payload is still `None` and the final
`guid.decode()` / `sn.decode()` / `pn.decode()` raises `AttributeError`
(modelled by `none`) instead of returning the status - shown concretely
for a failed write (`UART.write` returning `None`) with an empty reply
stream. -/
theorem guid_serial_product_read_fault :
    (∀ (w : Option Nat) (stream : List Nat),
      guid_read w stream = none ∨
        ∃ g, guid_read w stream = some (ANS_STATUS_SUCCESS, g)) ∧
    (∀ (w : Option Nat) (stream : List Nat),
      serial_number_read w stream = none ∨
        ∃ s, serial_number_read w stream = some (ANS_STATUS_SUCCESS, s)) ∧
    (∀ (w : Option Nat) (stream : List Nat),
      product_number_read w stream = none ∨
        ∃ p, product_number_read w stream = some (ANS_STATUS_SUCCESS, p)) ∧
    guid_read none [] = none ∧
    serial_number_read none [] = none ∧
    product_number_read none [] = none := by
  refine ⟨?_, ?_, ?_, by decide, by decide, by decide⟩
  · intro w stream
    simp only [guid_read]
    rcases w with _ | n
    · exact Or.inl rfl
    · rw [show encode_send_request MGI_RR [] (some n) = some ANS_STATUS_DATA_SENT from rfl]
      dsimp only
      rw [if_pos rfl]
      cases hrc : receive_decode_answer stream with
      | none => exact Or.inl rfl
      | some tr =>
        obtain ⟨rv, op, d⟩ := tr
        dsimp only
        by_cases hc : rv = ANS_STATUS_DATA_RECEIVED ∧ op = some MGI_RA
        · rw [if_pos hc]
          cases d with
          | none => exact Or.inl rfl
          | some g => exact Or.inr ⟨g, rfl⟩
        · rw [if_neg hc]
          exact Or.inl rfl
  · intro w stream
    simp only [serial_number_read]
    rcases w with _ | n
    · exact Or.inl rfl
    · rw [show encode_send_request MSN_RR [] (some n) = some ANS_STATUS_DATA_SENT from rfl]
      dsimp only
      rw [if_pos rfl]
      cases hrc : receive_decode_answer stream with
      | none => exact Or.inl rfl
      | some tr =>
        obtain ⟨rv, op, d⟩ := tr
        dsimp only
        by_cases hc : rv = ANS_STATUS_DATA_RECEIVED ∧ op = some MSN_RA
        · rw [if_pos hc]
          cases d with
          | none => exact Or.inl rfl
          | some s => exact Or.inr ⟨s, rfl⟩
        · rw [if_neg hc]
          exact Or.inl rfl
  · intro w stream
    simp only [product_number_read]
    rcases w with _ | n
    · exact Or.inl rfl
    · rw [show encode_send_request MPN_RR [] (some n) = some ANS_STATUS_DATA_SENT from rfl]
      dsimp only
      rw [if_pos rfl]
      cases hrc : receive_decode_answer stream with
      | none => exact Or.inl rfl
      | some tr =>
        obtain ⟨rv, op, d⟩ := tr
        dsimp only
        by_cases hc : rv = ANS_STATUS_DATA_RECEIVED ∧ op = some MPN_RA
        · rw [if_pos hc]
          cases d with
          | none => exact Or.inl rfl
          | some p => exact Or.inr ⟨p, rfl⟩
        · rw [if_neg hc]
          exact Or.inl rfl

/-- C2 (amended): a valid-CRC answer whose opcode differs from the
expected answer opcode is not promoted to `ANS_STATUS_SUCCESS` - the
status stays `ANS_STATUS_DATA_RECEIVED`; no distinct protocol-mismatch
status such as `ANS_STATUS_OPCODE_NOT_VALID` is produced.  Promotion to
`ANS_STATUS_SUCCESS` happens only when the decoded opcode equals the
expected one; the only other way `configuration_save` can return
`ANS_STATUS_SUCCESS` is the verbatim pass-through of a terminal error
frame whose 16-bit code is `0x7000`. -/
theorem opcode_mismatch_not_promoted :
    (∀ (n : Nat) (stream : List Nat) (op : Nat) (d : Option (List Nat)),
      receive_decode_answer stream = some (ANS_STATUS_DATA_RECEIVED, some op, d) →
      configuration_save (some n) stream =
        some (if op = CFG_SA then ANS_STATUS_SUCCESS else ANS_STATUS_DATA_RECEIVED)) ∧
    (∀ (n : Nat) (stream : List Nat) (op : Nat) (d : Option (List Nat)),
      receive_decode_answer stream = some (ANS_STATUS_DATA_RECEIVED, some op, d) →
      op ≠ CFG_RA →
      configuration_read (some n) stream = some (ANS_STATUS_DATA_RECEIVED, none)) ∧
    (∀ (w : Option Nat) (stream : List Nat),
      configuration_save w stream = some ANS_STATUS_SUCCESS →
      (∃ d, receive_decode_answer stream =
          some (ANS_STATUS_DATA_RECEIVED, some CFG_SA, d)) ∨
      receive_decode_answer stream = some (ANS_STATUS_SUCCESS, none, none)) := by
  refine ⟨?_, ?_, ?_⟩
  · intro n stream op d hrc
    simp only [configuration_save]
    rw [show encode_send_request CFG_SR [] (some n) = some ANS_STATUS_DATA_SENT from rfl]
    dsimp only
    rw [if_pos rfl, hrc]
    dsimp only
    by_cases hop : op = CFG_SA
    · rw [if_pos ⟨rfl, by rw [hop]⟩, if_pos hop]
    · rw [if_neg fun hc => hop (Option.some.inj hc.2), if_neg hop]
  · intro n stream op d hrc hop
    simp only [configuration_read]
    rw [show encode_send_request CFG_RR [] (some n) = some ANS_STATUS_DATA_SENT from rfl]
    dsimp only
    rw [if_pos rfl, hrc]
    dsimp only
    rw [if_neg fun hc => hop (Option.some.inj hc.2)]
  · intro w stream h
    rcases w with _ | n
    · rw [show configuration_save none stream = some ANS_STATUS_HW_ERR from rfl] at h
      exact absurd (Option.some.inj h) (by decide)
    · simp only [configuration_save] at h
      rw [show encode_send_request CFG_SR [] (some n) = some ANS_STATUS_DATA_SENT from rfl] at h
      dsimp only at h
      rw [if_pos rfl] at h
      cases hrc : receive_decode_answer stream with
      | none => rw [hrc] at h; exact Option.noConfusion h
      | some tr =>
        obtain ⟨rv, op, d⟩ := tr
        rw [hrc] at h
        dsimp only at h
        by_cases hc : rv = ANS_STATUS_DATA_RECEIVED ∧ op = some CFG_SA
        · obtain ⟨hrv, hop⟩ := hc
          subst hrv
          subst hop
          exact Or.inl ⟨d, rfl⟩
        · rw [if_neg hc] at h
          have hv : rv = ANS_STATUS_SUCCESS := Option.some.inj h
          subst hv
          obtain ⟨hop, hd⟩ := receive_decode_success_shape stream _ op d hrc rfl
          subst hop
          subst hd
          exact Or.inr rfl

theorem opcode_mismatch_not_promoted_witness :
    receive_decode_answer ((encode_send_request_frame CFG_RA []).getD []) =
      some (ANS_STATUS_DATA_RECEIVED, some CFG_RA, some []) ∧
    configuration_save (some 1) ((encode_send_request_frame CFG_RA []).getD []) =
      some (if CFG_RA = CFG_SA then ANS_STATUS_SUCCESS else ANS_STATUS_DATA_RECEIVED) :=
  ⟨by decide, opcode_mismatch_not_promoted.1 1 _ CFG_RA (some []) (by decide)⟩

/-- C2 counterexample: feeding `configuration_save` (expected answer
opcode `CFG_SA = 0x90`) a valid-CRC answer frame carrying opcode
`CFG_RA = 0x95` yields `ANS_STATUS_DATA_RECEIVED` - not `SUCCESS`, but
also not the `ANS_STATUS_OPCODE_NOT_VALID`-class protocol-mismatch status
the claim describes. -/
theorem opcode_mismatch_counterexample :
    configuration_save (some 1) ((encode_send_request_frame CFG_RA []).getD []) =
      some ANS_STATUS_DATA_RECEIVED ∧
    ANS_STATUS_DATA_RECEIVED ≠ ANS_STATUS_SUCCESS ∧
    ANS_STATUS_DATA_RECEIVED ≠ ANS_STATUS_OPCODE_NOT_VALID := by decide

/-- C7: whenever `rtc_read` reports `ANS_STATUS_SUCCESS` together with a
time value, that value is the 4-byte little-endian offset decoded from
the `RTC_RA` answer payload plus the fixed epoch constant
`ASTROCAST_REF_UNIX_TIME = 1514764800`; in particular, an answer frame
with opcode `0x97` and payload bytes `[0, 0, 0, 0]` decodes to exactly
`1514764800`. -/
theorem rtc_read_epoch_offset :
    (∀ (w : Option Nat) (stream : List Nat) (t : Nat),
      rtc_read w stream = some (ANS_STATUS_SUCCESS, some t) →
      ∃ d d0 d1 d2 d3,
        receive_decode_answer stream =
          some (ANS_STATUS_DATA_RECEIVED, some RTC_RA, some d) ∧
        d.get? 0 = some d0 ∧ d.get? 1 = some d1 ∧ d.get? 2 = some d2 ∧
        d.get? 3 = some d3 ∧
        t = (d3 <<< 24) + (d2 <<< 16) + (d1 <<< 8) + (d0 <<< 0) +
          ASTROCAST_REF_UNIX_TIME) ∧
    rtc_read (some 1) ((encode_send_request_frame RTC_RA
        [48, 48, 48, 48, 48, 48, 48, 48]).getD []) =
      some (ANS_STATUS_SUCCESS, some ASTROCAST_REF_UNIX_TIME) := by
  refine ⟨?_, by decide⟩
  intro w stream t h
  rcases w with _ | n
  · rw [show rtc_read none stream = some (ANS_STATUS_HW_ERR, none) from rfl] at h
    rw [Option.some.injEq, Prod.mk.injEq] at h
    exact absurd h.1 (by decide)
  · simp only [rtc_read] at h
    rw [show encode_send_request RTC_RR [] (some n) = some ANS_STATUS_DATA_SENT from rfl] at h
    dsimp only at h
    rw [if_pos rfl] at h
    cases hrc : receive_decode_answer stream with
    | none => rw [hrc] at h; exact Option.noConfusion h
    | some tr =>
      obtain ⟨rv, op, dOpt⟩ := tr
      rw [hrc] at h
      dsimp only at h
      by_cases hc : rv = ANS_STATUS_DATA_RECEIVED ∧ op = some RTC_RA
      · obtain ⟨hrv, hop⟩ := hc
        subst hrv
        subst hop
        rw [if_pos ⟨rfl, rfl⟩] at h
        cases dOpt with
        | none => exact Option.noConfusion h
        | some d =>
          dsimp only at h
          cases hg3 : d.get? 3 with
          | none => rw [hg3] at h; exact Option.noConfusion h
          | some d3 =>
            cases hg2 : d.get? 2 with
            | none => rw [hg3, hg2] at h; exact Option.noConfusion h
            | some d2 =>
              cases hg1 : d.get? 1 with
              | none => rw [hg3, hg2, hg1] at h; exact Option.noConfusion h
              | some d1 =>
                cases hg0 : d.get? 0 with
                | none => rw [hg3, hg2, hg1, hg0] at h; exact Option.noConfusion h
                | some d0 =>
                  rw [hg3, hg2, hg1, hg0] at h
                  dsimp only at h
                  rw [Option.some.injEq, Prod.mk.injEq] at h
                  exact ⟨d, d0, d1, d2, d3, rfl, hg0, hg1, hg2, hg3,
                    (Option.some.inj h.2).symm⟩
      · rw [if_neg hc] at h
        rw [Option.some.injEq, Prod.mk.injEq] at h
        exact absurd h.2 (fun hh => Option.noConfusion hh)

theorem rtc_read_epoch_offset_witness :
    rtc_read (some 1) ((encode_send_request_frame RTC_RA
        [48, 48, 48, 48, 48, 48, 48, 48]).getD []) =
      some (ANS_STATUS_SUCCESS, some ASTROCAST_REF_UNIX_TIME) ∧
    ∃ d d0 d1 d2 d3,
      receive_decode_answer ((encode_send_request_frame RTC_RA
          [48, 48, 48, 48, 48, 48, 48, 48]).getD []) =
        some (ANS_STATUS_DATA_RECEIVED, some RTC_RA, some d) ∧
      d.get? 0 = some d0 ∧ d.get? 1 = some d1 ∧ d.get? 2 = some d2 ∧
      d.get? 3 = some d3 ∧
      ASTROCAST_REF_UNIX_TIME = (d3 <<< 24) + (d2 <<< 16) + (d1 <<< 8) +
        (d0 <<< 0) + ASTROCAST_REF_UNIX_TIME :=
  ⟨by decide, rtc_read_epoch_offset.1 (some 1) _ ASTROCAST_REF_UNIX_TIME (by decide)⟩

/-- C9 (amended): the success test of `factory_reset` compares the
request opcode constant `CFG_FR = 0x11` with the answer opcode constant
`CFG_FA = 0x91` - never the decoded answer opcode - so it can never hold:
every decoded answer, the valid `CFG_FA` answer included, leaves the
status at `ANS_STATUS_DATA_RECEIVED`.  The only way `factory_reset` can
still return `ANS_STATUS_SUCCESS` is the verbatim pass-through of a
terminal error frame whose 16-bit code is `0x7000`. -/
theorem factory_reset_never_promoted :
    CFG_FR ≠ CFG_FA ∧
    (∀ (n : Nat) (stream : List Nat) (op : Option Nat) (d : Option (List Nat)),
      receive_decode_answer stream = some (ANS_STATUS_DATA_RECEIVED, op, d) →
      factory_reset (some n) stream = some ANS_STATUS_DATA_RECEIVED) ∧
    (∀ (w : Option Nat) (stream : List Nat),
      factory_reset w stream = some ANS_STATUS_SUCCESS →
      receive_decode_answer stream = some (ANS_STATUS_SUCCESS, none, none)) := by
  refine ⟨by decide, ?_, ?_⟩
  · intro n stream op d hrc
    simp only [factory_reset]
    rw [show encode_send_request CFG_FR [] (some n) = some ANS_STATUS_DATA_SENT from rfl]
    dsimp only
    rw [if_pos rfl, hrc]
    dsimp only
    rw [if_neg fun hc => absurd hc.2 (by decide)]
  · intro w stream h
    rcases w with _ | n
    · rw [show factory_reset none stream = some ANS_STATUS_HW_ERR from rfl] at h
      exact absurd (Option.some.inj h) (by decide)
    · simp only [factory_reset] at h
      rw [show encode_send_request CFG_FR [] (some n) = some ANS_STATUS_DATA_SENT from rfl] at h
      dsimp only at h
      rw [if_pos rfl] at h
      cases hrc : receive_decode_answer stream with
      | none => rw [hrc] at h; exact Option.noConfusion h
      | some tr =>
        obtain ⟨rv, op, d⟩ := tr
        rw [hrc] at h
        dsimp only at h
        rw [if_neg fun hc => absurd hc.2 (by decide)] at h
        have hv : rv = ANS_STATUS_SUCCESS := Option.some.inj h
        subst hv
        obtain ⟨hop, hd⟩ := receive_decode_success_shape stream _ op d hrc rfl
        subst hop
        subst hd
        exact rfl

theorem factory_reset_never_promoted_witness :
    receive_decode_answer ((encode_send_request_frame CFG_FA []).getD []) =
      some (ANS_STATUS_DATA_RECEIVED, some CFG_FA, some []) ∧
    factory_reset (some 1) ((encode_send_request_frame CFG_FA []).getD []) =
      some ANS_STATUS_DATA_RECEIVED :=
  ⟨by decide,
    factory_reset_never_promoted.2.1 1 _ (some CFG_FA) (some []) (by decide)⟩

/-- C9 counterexample: `factory_reset` does return `ANS_STATUS_SUCCESS`
for one family of answer frames - a terminal error frame (`ERR_RA`) whose
little-endian 16-bit code is `0x7000`, the numeric value of
`ANS_STATUS_SUCCESS`, passed through verbatim. -/
theorem factory_reset_success_counterexample :
    factory_reset (some 1) ((encode_send_request_frame ERR_RA [48, 48, 55, 48]).getD []) =
      some ANS_STATUS_SUCCESS := by decide

/-- C8 (amended): the payload-ID check of `enqueue_payload` can never
succeed: the id it keeps is the 4-character hex string while `id_check`
is the integer decoded from the answer, and Python `==` between a `str`
and an `int` is always `False` - so every valid `PLD_EA` answer with an
echoed ID, the matching one included, yields
`ANS_STATUS_PAYLOAD_ID_CHECK_FAILED`.  The only way `enqueue_payload` can
still return `ANS_STATUS_SUCCESS` is the verbatim pass-through of a
terminal error frame whose 16-bit code is `0x7000`. -/
theorem enqueue_payload_id_check :
    (∀ (data : List Nat) (id : Option (List Nat)) (rnd n : Nat)
        (stream : List Nat) (r : Nat × Option (List Nat)) (dd : List Nat)
        (b0 b1 : Nat),
      data.length <= ASN_MAX_MSG_SIZE →
      enqueue_payload data id rnd (some n) stream = some r →
      receive_decode_answer stream =
        some (ANS_STATUS_DATA_RECEIVED, some PLD_EA, some dd) →
      dd.get? 0 = some b0 → dd.get? 1 = some b1 →
      r.1 = ANS_STATUS_PAYLOAD_ID_CHECK_FAILED) ∧
    (∀ (data : List Nat) (id : Option (List Nat)) (rnd : Nat) (w : Option Nat)
        (stream : List Nat) (r : Nat × Option (List Nat)),
      enqueue_payload data id rnd w stream = some r →
      r.1 = ANS_STATUS_SUCCESS →
      receive_decode_answer stream = some (ANS_STATUS_SUCCESS, none, none)) := by
  constructor
  · intro data id rnd n stream r dd b0 b1 hlen henq hrc h0 h1
    rw [enqueue_payload, if_pos hlen] at henq
    cases hgm : generate_message data true id rnd with
    | mk mid msg =>
      rw [hgm] at henq
      dsimp only at henq
      cases hf : encode_send_request_frame PLD_ER msg with
      | none =>
        rw [show encode_send_request PLD_ER msg (some n) = none by
          rw [encode_send_request, hf]] at henq
        exact Option.noConfusion henq
      | some fr =>
        rw [show encode_send_request PLD_ER msg (some n) = some ANS_STATUS_DATA_SENT by
          rw [encode_send_request, hf]] at henq
        dsimp only at henq
        rw [if_pos rfl, hrc] at henq
        dsimp only at henq
        rw [if_pos ⟨rfl, rfl⟩] at henq
        rw [h1, h0] at henq
        dsimp only at henq
        rw [show pyEq (PyVal.pstr (mid.getD []))
            (PyVal.pint ((b1 <<< 8) + b0)) = false from rfl] at henq
        rw [if_neg Bool.false_ne_true] at henq
        rw [Option.some.injEq] at henq
        rw [← henq]
  · intro data id rnd w stream r henq hv
    rw [enqueue_payload] at henq
    by_cases hlen : data.length <= ASN_MAX_MSG_SIZE
    case neg =>
      rw [if_neg hlen, Option.some.injEq] at henq
      rw [← henq] at hv
      have hx : ANS_STATUS_PAYLOAD_TOO_LONG = ANS_STATUS_SUCCESS := hv
      exact absurd hx (by decide)
    case pos =>
      rw [if_pos hlen] at henq
      cases hgm : generate_message data true id rnd with
      | mk mid msg =>
        rw [hgm] at henq
        dsimp only at henq
        cases hf : encode_send_request_frame PLD_ER msg with
        | none =>
          rw [show encode_send_request PLD_ER msg w = none by
            rw [encode_send_request.eq_def, hf]] at henq
          exact Option.noConfusion henq
        | some fr =>
          rcases w with _ | n
          · rw [show encode_send_request PLD_ER msg none = some ANS_STATUS_HW_ERR by
              rw [encode_send_request, hf]] at henq
            dsimp only at henq
            rw [if_neg (by decide), Option.some.injEq] at henq
            rw [← henq] at hv
            have hx : ANS_STATUS_HW_ERR = ANS_STATUS_SUCCESS := hv
            exact absurd hx (by decide)
          · rw [show encode_send_request PLD_ER msg (some n) = some ANS_STATUS_DATA_SENT by
              rw [encode_send_request, hf]] at henq
            dsimp only at henq
            rw [if_pos rfl] at henq
            cases hrc : receive_decode_answer stream with
            | none => rw [hrc] at henq; exact Option.noConfusion henq
            | some tr =>
              obtain ⟨rv, op, dOpt⟩ := tr
              rw [hrc] at henq
              dsimp only at henq
              by_cases hc : rv = ANS_STATUS_DATA_RECEIVED ∧ op = some PLD_EA
              · rw [if_pos hc] at henq
                cases dOpt with
                | none => exact Option.noConfusion henq
                | some dd =>
                  dsimp only at henq
                  cases hg1 : dd.get? 1 with
                  | none =>
                    rw [hg1] at henq
                    exact Option.noConfusion henq
                  | some b1 =>
                    cases hg0 : dd.get? 0 with
                    | none =>
                      rw [hg1, hg0] at henq
                      exact Option.noConfusion henq
                    | some b0 =>
                      rw [hg1, hg0] at henq
                      dsimp only at henq
                      rw [show pyEq (PyVal.pstr (mid.getD []))
                          (PyVal.pint ((b1 <<< 8) + b0)) = false from rfl] at henq
                      rw [if_neg Bool.false_ne_true, Option.some.injEq] at henq
                      rw [← henq] at hv
                      have hx : ANS_STATUS_PAYLOAD_ID_CHECK_FAILED = ANS_STATUS_SUCCESS := hv
                      exact absurd hx (by decide)
              · rw [if_neg hc, Option.some.injEq] at henq
                rw [← henq] at hv
                have hv2 : rv = ANS_STATUS_SUCCESS := hv
                subst hv2
                obtain ⟨hop, hd⟩ := receive_decode_success_shape stream _ op dOpt hrc rfl
                subst hop
                subst hd
                exact rfl

theorem enqueue_payload_id_check_witness :
    ([] : List Nat).length <= ASN_MAX_MSG_SIZE ∧
    enqueue_payload [] (some [49, 50, 51, 52]) 0 (some 1)
        ((encode_send_request_frame PLD_EA [51, 52, 49, 50]).getD []) =
      some (ANS_STATUS_PAYLOAD_ID_CHECK_FAILED, some [49, 50, 51, 52]) ∧
    ((ANS_STATUS_PAYLOAD_ID_CHECK_FAILED, some [49, 50, 51, 52]) :
        Nat × Option (List Nat)).1 = ANS_STATUS_PAYLOAD_ID_CHECK_FAILED :=
  ⟨by decide, by decide,
    enqueue_payload_id_check.1 [] (some [49, 50, 51, 52]) 0 1
      ((encode_send_request_frame PLD_EA [51, 52, 49, 50]).getD [])
      (ANS_STATUS_PAYLOAD_ID_CHECK_FAILED, some [49, 50, 51, 52])
      [0x34, 0x12] 0x34 0x12 (by decide) (by decide) (by decide) (by decide) (by decide)⟩

/-- C8 counterexample: `enqueue_payload` does return
`ANS_STATUS_SUCCESS` for one family of answer frames - a terminal error
frame (`ERR_RA`) whose little-endian 16-bit code is `0x7000`, passed
through verbatim before the payload-ID check is ever reached. -/
theorem enqueue_payload_success_counterexample :
    enqueue_payload [] (some [49, 50, 51, 52]) 0 (some 1)
        ((encode_send_request_frame ERR_RA [48, 48, 55, 48]).getD []) =
      some (ANS_STATUS_SUCCESS, some [49, 50, 51, 52]) := by decide

end Astronode
